import Mathlib

/-!
Verification of the Tauri native-side bridge of AudioBook-Maker
(src/frontend/src-tauri/src/commands.rs, state.rs, lib.rs).

The session state is a shallow embedding of `AppState` from state.rs: each
Rust `Mutex<T>` field becomes an `MGuard T`, a cell holding the protected
value together with a poisoned flag (locking a poisoned mutex fails, which
the source handles with an `if let Ok(..)` no-op in setters and a default
fallback in getters).  Commands from commands.rs become pure functions; the
external world (the HTTP network and the filesystem) is passed in explicitly:
an HTTP GET is a function from URL to `HttpOutcome`, and the filesystem is a
map from path to file data plus a per-path write-permission predicate.
-/

/-- Outcome of one HTTP GET as observed by reqwest in commands.rs: either a
response carrying a numeric status code, or a network-level error (connection
refused, no listener, timeout, DNS failure, ...). -/
inductive HttpOutcome where
  | response (status : Nat)
  | networkError
  deriving DecidableEq

/-- reqwest StatusCode::is_success: the status code is in the 2xx range. -/
def statusIsSuccess (status : Nat) : Bool :=
  200 ≤ status && status < 300

/-- Shallow embedding of a Rust std::sync::Mutex cell from state.rs: the
protected value together with a poisoned flag. -/
structure MGuard (α : Type) where
  value : α
  poisoned : Bool
  deriving DecidableEq

/-- Mutex::lock as used in state.rs: succeeds with the protected value unless
the mutex is poisoned.  (The source only ever uses the Ok branch of the lock
result, so an Option is a faithful image of that usage.) -/
def MGuard.lock {α : Type} (g : MGuard α) : Option α :=
  if g.poisoned then none else some g.value

/-- AppState from state.rs: three independently guarded session fields. -/
structure AppState where
  backend_url : MGuard String
  backend_running : MGuard Bool
  last_project_path : MGuard (Option String)
  deriving DecidableEq

/-- AppState::new from state.rs. -/
def AppState.new : AppState :=
  { backend_url := { value := "http://127.0.0.1:8765", poisoned := false }
    backend_running := { value := false, poisoned := false }
    last_project_path := { value := none, poisoned := false } }

/-- AppState::set_backend_url: if let Ok(mut g) = lock() then assign, else
silently do nothing. -/
def AppState.set_backend_url (s : AppState) (url : String) : AppState :=
  match s.backend_url.lock with
  | some _ => { s with backend_url := { s.backend_url with value := url } }
  | none => s

/-- AppState::get_backend_url: lock, clone the value, and fall back to the
default URL when the lock cannot be acquired. -/
def AppState.get_backend_url (s : AppState) : String :=
  (s.backend_url.lock.map (fun url => url)).getD "http://127.0.0.1:8765"

/-- AppState::set_backend_running: assign under the lock, or silently no-op. -/
def AppState.set_backend_running (s : AppState) (running : Bool) : AppState :=
  match s.backend_running.lock with
  | some _ => { s with backend_running := { s.backend_running with value := running } }
  | none => s

/-- AppState::is_backend_running: read under the lock, defaulting to false. -/
def AppState.is_backend_running (s : AppState) : Bool :=
  (s.backend_running.lock.map (fun running => running)).getD false

/-- AppState::set_last_project_path: assign under the lock, or silently no-op. -/
def AppState.set_last_project_path (s : AppState) (path : Option String) : AppState :=
  match s.last_project_path.lock with
  | some _ => { s with last_project_path := { s.last_project_path with value := path } }
  | none => s

/-- AppState::get_last_project_path: lock().ok().and_then(clone); a poisoned
lock therefore reads as absent. -/
def AppState.get_last_project_path (s : AppState) : Option String :=
  s.last_project_path.lock.bind (fun path => path)

/-- The URL literal that check_backend_health in commands.rs passes to
reqwest::get. -/
def check_backend_health_target : String :=
  "http://127.0.0.1:8765/health"

/-- check_backend_health from commands.rs: one GET to the fixed target;
a response maps to Ok(status.is_success()), any network error to Ok(false). -/
def check_backend_health (net : String → HttpOutcome) : Except String Bool :=
  match net check_backend_health_target with
  | HttpOutcome.response status => Except.ok (statusIsSuccess status)
  | HttpOutcome.networkError => Except.ok false

/-- Health check as the spec words it, for refinement comparison only:
a GET issued to \x7bbackendUrl\x7d/health, where backendUrl is read from the
session state. -/
def checkBackendHealthSpecced (s : AppState) (net : String → HttpOutcome) :
    Except String Bool :=
  match net (s.get_backend_url ++ "/health") with
  | HttpOutcome.response status => Except.ok (statusIsSuccess status)
  | HttpOutcome.networkError => Except.ok false

/-- ping from commands.rs. -/
def ping : String :=
  "pong"

/-- open_project_file from commands.rs: always the empty placeholder. -/
def open_project_file : Except String String :=
  Except.ok ""

/-- Content of one file on disk.  save_project_file writes a String,
export_audio writes a raw byte vector; fs::write persists either verbatim. -/
inductive FileData where
  | text (s : String)
  | bytes (b : List Nat)
  deriving DecidableEq

/-- The local filesystem as the two commands observe it: the stored files,
which paths accept a write, and the OS error text a failed write reports. -/
structure FileSystem where
  files : String → Option FileData
  writable : String → Bool
  errMsg : String → String

/-- std::fs::write: on a writable path, replace the file at path with data;
otherwise fail with the OS error text for that path. -/
def fsWrite (fs : FileSystem) (path : String) (data : FileData) :
    Except String FileSystem :=
  if fs.writable path then
    Except.ok { fs with files := fun p => if p = path then some data else fs.files p }
  else
    Except.error (fs.errMsg path)

/-- save_project_file from commands.rs: fs::write the content, mapping a
write error to "Failed to save project file: " ++ cause and returning early;
only after a successful write is the last-project-path updated. -/
def save_project_file (path content : String) (st : AppState) (fs : FileSystem) :
    AppState × FileSystem × Except String Unit :=
  match fsWrite fs path (FileData.text content) with
  | Except.ok fs2 => (st.set_last_project_path (some path), fs2, Except.ok ())
  | Except.error e => (st, fs, Except.error ("Failed to save project file: " ++ e))

/-- export_audio from commands.rs: fs::write the raw audio bytes (the format
tag is not consulted for the write), mapping a write error to
"Failed to export audio: " ++ cause; on success one line is printed to stdout
(returned here as the list of emitted lines). -/
def export_audio (format path : String) (audio_data : List Nat) (fs : FileSystem) :
    FileSystem × List String × Except String Unit :=
  match fsWrite fs path (FileData.bytes audio_data) with
  | Except.ok fs2 =>
      (fs2, ["Audio exported to " ++ path ++ " in " ++ format ++ " format"],
        Except.ok ())
  | Except.error e => (fs, [], Except.error ("Failed to export audio: " ++ e))

/-- ping lifted to the state-passing world: the command signature in
commands.rs takes no State parameter, so its action on the session state is
the identity. -/
def pingCmd (s : AppState) : AppState × String :=
  (s, ping)

/-- check_backend_health lifted to the state-passing world: the command
signature in commands.rs takes no State parameter, so its action on the
session state is the identity. -/
def checkBackendHealthCmd (net : String → HttpOutcome) (s : AppState) :
    AppState × Except String Bool :=
  (s, check_backend_health net)

/-- An operation on one of the two AppState fields other than backend_url. -/
inductive OtherFieldOp where
  | setRunning (b : Bool)
  | setLastPath (p : Option String)
  deriving DecidableEq

/-- Run a sequence of operations on the two non-URL fields. -/
def applyOtherOps (s : AppState) : List OtherFieldOp → AppState
  | [] => s
  | OtherFieldOp.setRunning b :: rest => applyOtherOps (s.set_backend_running b) rest
  | OtherFieldOp.setLastPath p :: rest => applyOtherOps (s.set_last_project_path p) rest

/-- Operations on the other two fields never touch the backend_url cell. -/
theorem applyOtherOps_backend_url (s : AppState) (ops : List OtherFieldOp) :
    (applyOtherOps s ops).backend_url = s.backend_url := by
  induction ops generalizing s with
  | nil => rfl
  | cons op rest ih =>
      cases op with
      | setRunning b =>
          by_cases h : s.backend_running.poisoned <;>
            simp [applyOtherOps, AppState.set_backend_running, MGuard.lock, h, ih]
      | setLastPath p =>
          by_cases h : s.last_project_path.poisoned <;>
            simp [applyOtherOps, AppState.set_last_project_path, MGuard.lock, h, ih]

/-- C8: ping takes no input, always returns the literal "pong", never fails,
and leaves the session state untouched. -/
theorem ping_pong_no_side_effect (s : AppState) :
    ping = "pong" ∧ pingCmd s = (s, "pong") := by
  exact ⟨rfl, rfl⟩

/-- C9: open_project_file always succeeds with the empty placeholder string
and never returns an error. -/
theorem openProjectFile_placeholder :
    open_project_file = Except.ok "" := by
  rfl

/-- C10: check_backend_health never modifies the session state: the state
after the command equals the state before, for every network outcome, and the
result is exactly the stateless health check. -/
theorem checkBackendHealth_frame (net : String → HttpOutcome) (s : AppState) :
    (checkBackendHealthCmd net s).1 = s ∧
    (checkBackendHealthCmd net s).2 = check_backend_health net := by
  exact ⟨rfl, rfl⟩

/-- C1: for every outcome of its single GET, check_backend_health returns a
success value, never an error, and that value is true exactly when the HTTP
response carries a success status code; every other outcome, network errors
included, yields false. -/
theorem checkBackendHealth_never_errors (net : String → HttpOutcome) :
    (∃ b : Bool, check_backend_health net = Except.ok b) ∧
    (check_backend_health net = Except.ok true ↔
      ∃ status : Nat, net check_backend_health_target = HttpOutcome.response status ∧
        statusIsSuccess status = true) := by
  constructor
  · cases h : net check_backend_health_target with
    | response status => exact ⟨statusIsSuccess status, by simp [check_backend_health, h]⟩
    | networkError => exact ⟨false, by simp [check_backend_health, h]⟩
  · cases h : net check_backend_health_target with
    | response status => simp [check_backend_health, h]
    | networkError => simp [check_backend_health, h]

/-- A session state whose backend URL has been overridden via the setter. -/
def c2State : AppState :=
  AppState.new.set_backend_url "http://127.0.0.1:9001"

/-- A network with a healthy listener at the overridden URL and no listener
anywhere else, in particular none at the default address. -/
def c2Net : String → HttpOutcome := fun url =>
  if url = "http://127.0.0.1:9001/health" then HttpOutcome.response 200
  else HttpOutcome.networkError

/-- C2 counterexample: after setting the backend URL to port 9001, a healthy
listener answers 200 at the stored URL's /health, yet check_backend_health
reports false, while the spec-worded check against the stored URL reports
true: the command does not issue its GET to the stored URL. -/
theorem checkBackendHealth_ignores_stored_url_cex :
    c2State.get_backend_url = "http://127.0.0.1:9001" ∧
    c2Net (c2State.get_backend_url ++ "/health") = HttpOutcome.response 200 ∧
    check_backend_health c2Net = Except.ok false ∧
    checkBackendHealthSpecced c2State c2Net = Except.ok true ∧
    check_backend_health c2Net ≠ checkBackendHealthSpecced c2State c2Net := by
  have hfalse : check_backend_health c2Net = Except.ok false := by rfl
  have htrue : checkBackendHealthSpecced c2State c2Net = Except.ok true := by rfl
  refine ⟨by rfl, by rfl, hfalse, htrue, ?_⟩
  intro h
  rw [hfalse, htrue] at h
  simp at h

/-- C2 amended: check_backend_health always issues its GET to the fixed
address http://127.0.0.1:8765/health, ignoring the session state; it agrees
with a GET to \x7bbackendUrl\x7d/health exactly on those states whose stored
URL still equals the default. -/
theorem checkBackendHealth_fixed_target (s : AppState) (net : String → HttpOutcome)
    (h : s.get_backend_url = "http://127.0.0.1:8765") :
    check_backend_health net = checkBackendHealthSpecced s net := by
  have e : s.get_backend_url ++ "/health" = check_backend_health_target := by
    rw [h]; rfl
  unfold check_backend_health checkBackendHealthSpecced
  rw [e]

/-- Witness for the C2 amended theorem at the freshly created state. -/
theorem checkBackendHealth_fixed_target_witness :
    AppState.new.get_backend_url = "http://127.0.0.1:8765" ∧
    check_backend_health (fun _ => HttpOutcome.networkError) =
      checkBackendHealthSpecced AppState.new (fun _ => HttpOutcome.networkError) :=
  ⟨rfl, checkBackendHealth_fixed_target AppState.new
    (fun _ => HttpOutcome.networkError) rfl⟩

/-- C3: a successful save_project_file writes the content verbatim to the
path and afterwards the last-project-path getter returns that path (its
guard being healthy, as it is throughout normal operation). -/
theorem saveProjectFile_roundtrip (path content : String) (st : AppState)
    (fs : FileSystem) (hw : fs.writable path = true)
    (hp : st.last_project_path.poisoned = false) :
    (save_project_file path content st fs).2.2 = Except.ok () ∧
    (save_project_file path content st fs).2.1.files path =
      some (FileData.text content) ∧
    (save_project_file path content st fs).1.get_last_project_path = some path := by
  simp [save_project_file, fsWrite, hw, AppState.set_last_project_path,
    AppState.get_last_project_path, MGuard.lock, hp]

/-- A filesystem accepting every write, with no pre-existing files. -/
def fsAllWritable : FileSystem :=
  { files := fun _ => none
    writable := fun _ => true
    errMsg := fun _ => "os error" }

/-- Witness for C3 at a concrete path, content, state and filesystem. -/
theorem saveProjectFile_roundtrip_witness :
    fsAllWritable.writable "project.json" = true ∧
    AppState.new.last_project_path.poisoned = false ∧
    (save_project_file "project.json" "data" AppState.new fsAllWritable).2.2 =
      Except.ok () ∧
    (save_project_file "project.json" "data" AppState.new fsAllWritable).2.1.files
      "project.json" = some (FileData.text "data") ∧
    (save_project_file "project.json" "data" AppState.new
      fsAllWritable).1.get_last_project_path = some "project.json" := by
  have h := saveProjectFile_roundtrip "project.json" "data" AppState.new
    fsAllWritable rfl rfl
  exact ⟨rfl, rfl, h.1, h.2.1, h.2.2⟩

/-- C4: when the filesystem write fails, save_project_file returns an error
string made of a fixed prefix plus the underlying cause, and leaves both the
session state (in particular the last-project-path field) and the filesystem
untouched. -/
theorem saveProjectFile_write_failure (path content : String) (st : AppState)
    (fs : FileSystem) (hw : fs.writable path = false) :
    save_project_file path content st fs =
      (st, fs, Except.error ("Failed to save project file: " ++ fs.errMsg path)) := by
  simp [save_project_file, fsWrite, hw]

/-- A filesystem refusing every write with a permission error. -/
def fsDenied : FileSystem :=
  { files := fun _ => none
    writable := fun _ => false
    errMsg := fun _ => "Permission denied (os error 13)" }

/-- Witness for C4 at a concrete unwritable path. -/
theorem saveProjectFile_write_failure_witness :
    fsDenied.writable "/etc/project.json" = false ∧
    save_project_file "/etc/project.json" "data" AppState.new fsDenied =
      (AppState.new, fsDenied,
        Except.error ("Failed to save project file: " ++
          fsDenied.errMsg "/etc/project.json")) :=
  ⟨rfl, saveProjectFile_write_failure "/etc/project.json" "data" AppState.new
    fsDenied rfl⟩

/-- C5: a successful export_audio writes exactly the byte payload to the
path, and both the resulting filesystem and the result value are identical
for any two format tags, recognized or not: the format argument never
influences the written output. -/
theorem exportAudio_writes_bytes_format_inert (format format2 path : String)
    (audio_data : List Nat) (fs : FileSystem) (hw : fs.writable path = true) :
    (export_audio format path audio_data fs).2.2 = Except.ok () ∧
    (export_audio format path audio_data fs).1.files path =
      some (FileData.bytes audio_data) ∧
    (export_audio format path audio_data fs).1 =
      (export_audio format2 path audio_data fs).1 ∧
    (export_audio format path audio_data fs).2.2 =
      (export_audio format2 path audio_data fs).2.2 := by
  simp [export_audio, fsWrite, hw]

/-- Witness for C5 with a recognized and an unrecognized format tag. -/
theorem exportAudio_writes_bytes_format_inert_witness :
    fsAllWritable.writable "out.bin" = true ∧
    (export_audio "mp3" "out.bin" [1, 2, 3] fsAllWritable).2.2 = Except.ok () ∧
    (export_audio "mp3" "out.bin" [1, 2, 3] fsAllWritable).1.files "out.bin" =
      some (FileData.bytes [1, 2, 3]) ∧
    (export_audio "mp3" "out.bin" [1, 2, 3] fsAllWritable).1 =
      (export_audio "no-such-format" "out.bin" [1, 2, 3] fsAllWritable).1 ∧
    (export_audio "mp3" "out.bin" [1, 2, 3] fsAllWritable).2.2 =
      (export_audio "no-such-format" "out.bin" [1, 2, 3] fsAllWritable).2.2 := by
  have h := exportAudio_writes_bytes_format_inert "mp3" "no-such-format" "out.bin"
    [1, 2, 3] fsAllWritable rfl
  exact ⟨rfl, h.1, h.2.1, h.2.2.1, h.2.2.2⟩

/-- C6: on each SessionState field whose guard is poisoned, the getter
returns the documented default (the default URL, false, absent) and the
setter leaves the whole state unchanged. -/
theorem sessionState_poisoned_defaults (s : AppState) (u : String) (b : Bool)
    (p : Option String) :
    (s.backend_url.poisoned = true →
      s.get_backend_url = "http://127.0.0.1:8765" ∧ s.set_backend_url u = s) ∧
    (s.backend_running.poisoned = true →
      s.is_backend_running = false ∧ s.set_backend_running b = s) ∧
    (s.last_project_path.poisoned = true →
      s.get_last_project_path = none ∧ s.set_last_project_path p = s) := by
  refine ⟨fun h1 => ?_, fun h2 => ?_, fun h3 => ?_⟩
  · constructor <;> simp [AppState.get_backend_url, AppState.set_backend_url,
      MGuard.lock, h1]
  · constructor <;> simp [AppState.is_backend_running, AppState.set_backend_running,
      MGuard.lock, h2]
  · constructor <;> simp [AppState.get_last_project_path,
      AppState.set_last_project_path, MGuard.lock, h3]

/-- A state whose three guards are all poisoned, holding non-default values
so that the fallbacks below are visibly the documented defaults. -/
def poisonedState : AppState :=
  { backend_url := { value := "http://10.0.0.1:1", poisoned := true }
    backend_running := { value := true, poisoned := true }
    last_project_path := { value := some "/tmp/old.json", poisoned := true } }

/-- Witness for C6 at a fully poisoned state. -/
theorem sessionState_poisoned_defaults_witness :
    poisonedState.get_backend_url = "http://127.0.0.1:8765" ∧
    poisonedState.is_backend_running = false ∧
    poisonedState.get_last_project_path = none ∧
    poisonedState.set_backend_url "http://u" = poisonedState ∧
    poisonedState.set_backend_running false = poisonedState ∧
    poisonedState.set_last_project_path (some "/p") = poisonedState := by
  have h := sessionState_poisoned_defaults poisonedState "http://u" false (some "/p")
  exact ⟨(h.1 rfl).1, (h.2.1 rfl).1, (h.2.2 rfl).1,
    (h.1 rfl).2, (h.2.1 rfl).2, (h.2.2 rfl).2⟩

/-- C7: once set_backend_url stores u (under a healthy guard), get_backend_url
returns exactly u, and keeps returning u across any sequence of operations on
the other two fields, there being no further call to the URL setter. -/
theorem backendUrl_set_get_roundtrip (s : AppState) (u : String)
    (ops : List OtherFieldOp) (h : s.backend_url.poisoned = false) :
    (applyOtherOps (s.set_backend_url u) ops).get_backend_url = u := by
  have hb : (applyOtherOps (s.set_backend_url u) ops).backend_url =
      (s.set_backend_url u).backend_url :=
    applyOtherOps_backend_url _ ops
  unfold AppState.get_backend_url
  rw [hb]
  simp [AppState.set_backend_url, MGuard.lock, h]

/-- Witness for C7: set a URL on the fresh state, touch both other fields,
and read the URL back. -/
theorem backendUrl_set_get_roundtrip_witness :
    AppState.new.backend_url.poisoned = false ∧
    (applyOtherOps (AppState.new.set_backend_url "http://127.0.0.1:9001")
        [OtherFieldOp.setRunning true,
         OtherFieldOp.setLastPath (some "/tmp/p.json"),
         OtherFieldOp.setRunning false]).get_backend_url = "http://127.0.0.1:9001" :=
  ⟨rfl, backendUrl_set_get_roundtrip AppState.new "http://127.0.0.1:9001"
    [OtherFieldOp.setRunning true,
     OtherFieldOp.setLastPath (some "/tmp/p.json"),
     OtherFieldOp.setRunning false] rfl⟩
